import Mathlib

/-!
Shallow embedding of the PawPal appointment scheduling routes
(`appointmentRoutes.js`, the Express router over Firestore).

Timestamps are modelled as `Int` milliseconds since the Unix epoch
(JavaScript `Date.getTime()`); durations as `Int` minutes (the code never
validates them, so negative values are representable exactly as in the
source).  Firestore collections are modelled as Lean lists; a Firestore
`update` is a field-merge on the matching document.  `serverTimestamp()`
is modelled by the `now` argument threaded through each handler.
-/

/-- Appointment status strings used by the code
(`pending`, `confirmed`, `cancelled`, `completed`, `no_show`). -/
inductive Status where
  | pending
  | confirmed
  | cancelled
  | completed
  | no_show
deriving DecidableEq, Repr

/-- An appointment document, with the fields the routes read and write.
Optional timestamps (`confirmedAt`, ...) are absent (`none`) until the
corresponding transition writes them. -/
structure Appointment where
  id : Nat
  ownerId : Nat
  petId : Nat
  veterinarianId : Nat
  dateTime : Int
  duration : Int
  status : Status
  reason : String
  notes : Option String
  statusReason : Option String
  rescheduleReason : Option String
  confirmedAt : Option Int
  completedAt : Option Int
  cancelledAt : Option Int
  rescheduledAt : Option Int
  createdAt : Int
  updatedAt : Int
deriving DecidableEq, Repr

/-- A pet document (only the fields the appointment routes read). -/
structure Pet where
  id : Nat
  ownerId : Nat
  name : String
deriving DecidableEq, Repr

/-- A user document (only the fields the appointment routes read). -/
structure UserRec where
  id : Nat
  role : String
  vetApplicationStatus : String
deriving DecidableEq, Repr

/-- The Firestore collections touched by the appointment routes. -/
structure DB where
  pets : List Pet
  users : List UserRec
  appointments : List Appointment
deriving DecidableEq, Repr

/-- JavaScript falsiness for an optional string field: `undefined` or `''`. -/
def jsFalsyStr (s : Option String) : Bool :=
  match s with
  | none => true
  | some v => v == ""

/-- `status in ['confirmed', 'pending']` — the Firestore filter used by
every conflict / availability query. -/
def blockingStatus (s : Status) : Bool :=
  s == .confirmed || s == .pending

/-- The `dateTime >= startTime && dateTime < endTime` range filter of the
conflict query (lines 83-84 and 459-460 of the routes file). -/
def inConflictWindow (startTime endTime : Int) (a : Appointment) : Bool :=
  startTime ≤ a.dateTime && a.dateTime < endTime

/-- The conflict query of the create and reschedule handlers:
appointments of the veterinarian with blocking status whose `dateTime`
lies in `[startTime, endTime)`. -/
def conflictingAppointments (appts : List Appointment) (vetId : Nat)
    (startTime endTime : Int) : List Appointment :=
  appts.filter fun a =>
    a.veterinarianId == vetId && blockingStatus a.status &&
      inConflictWindow startTime endTime a

/-- Body of `POST /` .  `none` models an absent (undefined) field; the
destructuring default `duration = 30` applies only when the field is
absent. -/
structure CreateRequest where
  petId : Option Nat
  veterinarianId : Option Nat
  dateTime : Option Int
  visitType : Option String
  reason : Option String
  notes : Option String
  duration : Option Int
deriving DecidableEq, Repr

/-- Outcome of `POST /`: each error constructor is one early-return JSON
error of the handler; `created` carries the persisted document. -/
inductive CreateResponse where
  | missingFields
  | petAccessDenied
  | vetNotAvailable
  | invalidDate
  | timeConflict
  | created (a : Appointment)
deriving DecidableEq, Repr

/-- Whether a create response is the 201 success. -/
def CreateResponse.isCreated : CreateResponse → Bool
  | .created _ => true
  | _ => false

/-- Whether a create response is the 409 `TIME_CONFLICT` error. -/
def CreateResponse.isTimeConflict : CreateResponse → Bool
  | .timeConflict => true
  | _ => false

/-- The duration stored by a successful create, if any. -/
def CreateResponse.createdDuration? : CreateResponse → Option Int
  | .created a => some a.duration
  | _ => none

/-- JavaScript `String.prototype.trim`: strip leading and trailing
whitespace.  Written over the character list so that it reduces inside
the kernel. -/
def jsTrim (s : String) : String :=
  String.mk (((s.data.dropWhile Char.isWhitespace).reverse.dropWhile
    Char.isWhitespace).reverse)

/-- JavaScript `notes ? notes.trim() : null` / `reason ? reason.trim() : null`. -/
def jsOptTrim (s : Option String) : Option String :=
  match s with
  | none => none
  | some v => if v == "" then none else some (jsTrim v)

/-- `POST /` (create appointment), lines 31-142 of the routes file:
required-field check, pet-ownership check, vet-approval check,
future-date check, conflict query, then persistence of the new
`pending` document.  `now` models `new Date()` / `serverTimestamp()`;
`newId` models the Firestore-generated document id. -/
def createAppointment (uid : Nat) (req : CreateRequest) (db : DB)
    (now : Int) (newId : Nat) : CreateResponse × DB :=
  if req.petId.isNone || req.veterinarianId.isNone || req.dateTime.isNone ||
      jsFalsyStr req.visitType || jsFalsyStr req.reason then
    (.missingFields, db)
  else
    let petId := req.petId.getD 0
    let vetId := req.veterinarianId.getD 0
    match db.pets.find? (fun p => p.id == petId) with
    | none => (.petAccessDenied, db)
    | some pet =>
      if pet.ownerId ≠ uid then (.petAccessDenied, db)
      else
        match db.users.find? (fun u => u.id == vetId) with
        | none => (.vetNotAvailable, db)
        | some vet =>
          if vet.role ≠ "veterinarian" ∨ vet.vetApplicationStatus ≠ "approved" then
            (.vetNotAvailable, db)
          else
            let appointmentDateTime := req.dateTime.getD 0
            if appointmentDateTime ≤ now then (.invalidDate, db)
            else
              let duration := req.duration.getD 30
              let startTime := appointmentDateTime
              let endTime := appointmentDateTime + duration * 60000
              if (conflictingAppointments db.appointments vetId startTime endTime).isEmpty then
                let a : Appointment :=
                  { id := newId
                    ownerId := uid
                    petId := petId
                    veterinarianId := vetId
                    dateTime := startTime
                    duration := duration
                    status := .pending
                    reason := jsTrim (req.reason.getD "")
                    notes := jsOptTrim req.notes
                    statusReason := none
                    rescheduleReason := none
                    confirmedAt := none
                    completedAt := none
                    cancelledAt := none
                    rescheduledAt := none
                    createdAt := now
                    updatedAt := now }
                (.created a, { db with appointments := db.appointments ++ [a] })
              else (.timeConflict, db)

/-- `const validStatuses = ['confirmed', 'cancelled', 'completed', 'no_show']`
(line 310). -/
def validStatuses : List String :=
  ["confirmed", "cancelled", "completed", "no_show"]

/-- Decode a status string.  Behind the `validStatuses` guard only the
four listed strings reach the handler body; the catch-all value is never
used there. -/
def statusOfString : String → Status
  | "confirmed" => .confirmed
  | "cancelled" => .cancelled
  | "completed" => .completed
  | "no_show" => .no_show
  | _ => .pending

/-- The `updateData` merge applied by `PATCH /:appointmentId/status`
(lines 345-362): set `status` and `updatedAt`, set `statusReason` only
when `reason` is truthy, and stamp `confirmedAt` / `completedAt` /
`cancelledAt` for the matching status. -/
def applyStatusUpdate (a : Appointment) (st : Status) (reason : Option String)
    (now : Int) : Appointment :=
  let a1 := { a with status := st, updatedAt := now }
  let a2 := if jsFalsyStr reason then a1
            else { a1 with statusReason := some (jsTrim (reason.getD "")) }
  match st with
  | .confirmed => { a2 with confirmedAt := some now }
  | .completed => { a2 with completedAt := some now }
  | .cancelled => { a2 with cancelledAt := some now }
  | _ => a2

/-- Outcome of `PATCH /:appointmentId/status`.  `updateStatusFailed` is
the catch-all 500 `UPDATE_STATUS_FAILED`, reached when the notification
write throws after the appointment update committed. -/
inductive StatusResponse where
  | invalidStatus
  | notFound
  | vetOnlyAction
  | accessDenied
  | ok
  | updateStatusFailed
deriving DecidableEq, Repr

/-- `PATCH /:appointmentId/status` (lines 304-410): status whitelist,
document lookup, role gates (vet-only for confirmed/completed/no_show,
owner-or-vet for cancelled), then the `updateData` merge followed by the
notification insert.  No check of the current status is performed.
`notifyOk` models whether the notification write succeeds; when it
throws, the surrounding try/catch answers 500 although the appointment
update has already committed. -/
def updateAppointmentStatus (uid apptId : Nat) (statusStr : String)
    (reason : Option String) (db : DB) (now : Int) (notifyOk : Bool) :
    StatusResponse × DB :=
  if ¬ validStatuses.contains statusStr then (.invalidStatus, db)
  else
    match db.appointments.find? (fun a => a.id == apptId) with
    | none => (.notFound, db)
    | some a =>
      let st := statusOfString statusStr
      if (st == .confirmed || st == .completed || st == .no_show) &&
          a.veterinarianId != uid then
        (.vetOnlyAction, db)
      else if st == .cancelled && a.ownerId != uid && a.veterinarianId != uid then
        (.accessDenied, db)
      else
        let appts' := db.appointments.map fun b =>
          if b.id == apptId then applyStatusUpdate b st reason now else b
        let db' := { db with appointments := appts' }
        if notifyOk then (.ok, db') else (.updateStatusFailed, db')

/-- Outcome of `PATCH /:appointmentId/reschedule`.  `rescheduleFailed` is
the catch-all 500 `RESCHEDULE_FAILED`. -/
inductive RescheduleResponse where
  | missingDateTime
  | notFound
  | accessDenied
  | invalidDate
  | timeConflict
  | ok
  | rescheduleFailed
deriving DecidableEq, Repr

/-- `PATCH /:appointmentId/reschedule` (lines 413-510): document lookup,
owner-or-vet gate, future-date check, the conflict query over
`[newStart, newStart + duration*60000)` with the moved appointment
filtered out by id, then the field merge (`dateTime`, `status: pending`,
`rescheduledAt`, `rescheduleReason`, `updatedAt`) and the notification
insert.  No check of the current status is performed. -/
def rescheduleAppointment (uid apptId : Nat) (newDateTime : Option Int)
    (reason : Option String) (db : DB) (now : Int) (notifyOk : Bool) :
    RescheduleResponse × DB :=
  match newDateTime with
  | none => (.missingDateTime, db)
  | some ndt =>
    match db.appointments.find? (fun a => a.id == apptId) with
    | none => (.notFound, db)
    | some a =>
      if a.ownerId ≠ uid ∧ a.veterinarianId ≠ uid then (.accessDenied, db)
      else if ndt ≤ now then (.invalidDate, db)
      else
        let startTime := ndt
        let endTime := ndt + a.duration * 60000
        let conflicts :=
          conflictingAppointments db.appointments a.veterinarianId startTime endTime
        if conflicts.any (fun d => d.id != apptId) then (.timeConflict, db)
        else
          let appts' := db.appointments.map fun b =>
            if b.id == apptId then
              { b with dateTime := startTime
                       status := .pending
                       rescheduledAt := some now
                       rescheduleReason := jsOptTrim reason
                       updatedAt := now }
            else b
          let db' := { db with appointments := appts' }
          if notifyOk then (.ok, db') else (.rescheduleFailed, db')

/-- The slot-generation loop of `GET /availability/:veterinarianId`
(line 568): starting at `workStart`, emit `time` while `time < workEnd`,
stepping by `step` milliseconds.  `fuel` bounds the recursion; callers
pass enough fuel to exhaust the window. -/
def genSlots (fuel : Nat) (time workEnd step : Int) : List Int :=
  match fuel with
  | 0 => []
  | fuel + 1 =>
    if time < workEnd then time :: genSlots fuel (time + step) workEnd step
    else []

/-- The `bookedSlots.some(...)` test (lines 575-579): the slot start lies
inside some booked interval `[start, start + duration*60000)`.  A booked
slot is a `(start, duration)` pair. -/
def isBooked (bookedSlots : List (Int × Int)) (slotTime : Int) : Bool :=
  bookedSlots.any fun b => b.1 ≤ slotTime && slotTime < b.1 + b.2 * 60000

/-- The day query of the availability endpoint (lines 545-559): blocking
appointments of the veterinarian with `dateTime` in
`[dayStart, dayStart + 86399999]`, projected to `(start, duration)`. -/
def bookedSlotsOf (appts : List Appointment) (vetId : Nat) (dayStart : Int) :
    List (Int × Int) :=
  (appts.filter fun a =>
      a.veterinarianId == vetId && blockingStatus a.status &&
        dayStart ≤ a.dateTime && a.dateTime ≤ dayStart + 86399999).map
    fun a => (a.dateTime, a.duration)

/-- The work-day slot grid of the availability endpoint: 09:00 to 17:00
on the requested day, 30-minute steps (16 candidate instants). -/
def slotGrid (dayStart : Int) : List Int :=
  genSlots 17 (dayStart + 9 * 3600000) (dayStart + 17 * 3600000) 1800000

/-- The successful-path computation of `GET /availability/:veterinarianId`
(lines 539-591), after the date and veterinarian guards: enumerate the
09:00-17:00 grid, skip slots with `slotTime <= now`, skip slots whose
start lies inside a booked interval, return the rest in loop order. -/
def getAvailability (db : DB) (vetId : Nat) (dayStart now : Int) : List Int :=
  let bookedSlots := bookedSlotsOf db.appointments vetId dayStart
  (slotGrid dayStart).filter fun t => now < t && ¬ isBooked bookedSlots t

/-- The page returned by `GET /` at lines 172-175: Firestore applies the
offset, then the limit, to the ordered matching records. -/
def pagedAppointments (matching : List Appointment) (lim off : Nat) :
    List Appointment :=
  (matching.drop off).take lim

/-- `hasMore: snapshot.size === parseInt(limit)` (line 233). -/
def hasMoreFlag (matching : List Appointment) (lim off : Nat) : Bool :=
  (pagedAppointments matching lim off).length == lim

/-- Modelled from the spec: the half-open interval-overlap rule the
specification attributes to ConflictDetector —
`candidate.start < existing.end AND existing.start < candidate.end`.
Used only to compare the specified rule with the queries the code runs. -/
def specOverlap (candStart candEnd exStart exEnd : Int) : Bool :=
  candStart < exEnd && exStart < candEnd

/-- A baseline appointment record used to build concrete test fixtures;
fields are overridden per scenario. -/
def mkAppt (i ownerId vetId : Nat) (dateTime duration : Int) (st : Status) :
    Appointment where
  id := i
  ownerId := ownerId
  petId := 11
  veterinarianId := vetId
  dateTime := dateTime
  duration := duration
  status := st
  reason := "checkup"
  notes := none
  statusReason := none
  rescheduleReason := none
  confirmedAt := none
  completedAt := none
  cancelledAt := none
  rescheduledAt := none
  createdAt := 0
  updatedAt := 0

/-- Fixture for the booking-conflict scenario: veterinarian 2 (approved)
has a confirmed 30-minute appointment at 2025-06-01T10:00Z
(epoch 1748772000000 ms); pet 10 belongs to user 1. -/
def scenarioDb : DB where
  pets := [{ id := 10, ownerId := 1, name := "Rex" }]
  users := [{ id := 2, role := "veterinarian", vetApplicationStatus := "approved" }]
  appointments := [mkAppt 1 3 2 1748772000000 30 .confirmed]

/-- A create request for veterinarian 2 at 2025-06-01T10:15Z, default
duration. -/
def scenarioReq1015 : CreateRequest where
  petId := some 10
  veterinarianId := some 2
  dateTime := some 1748772900000
  visitType := some "checkup"
  reason := some "limping"
  notes := none
  duration := none

/-- The same request at 2025-06-01T10:30Z. -/
def scenarioReq1030 : CreateRequest :=
  { scenarioReq1015 with dateTime := some 1748773800000 }


/-- A create request carrying an explicit zero duration. -/
def zeroDurationReq : CreateRequest :=
  { scenarioReq1030 with duration := some 0 }

/-- The document the create handler persists for `zeroDurationReq`. -/
def zeroDurationStored : Appointment where
  id := 50
  ownerId := 1
  petId := 10
  veterinarianId := 2
  dateTime := 1748773800000
  duration := 0
  status := .pending
  reason := "limping"
  notes := none
  statusReason := none
  rescheduleReason := none
  confirmedAt := none
  completedAt := none
  cancelledAt := none
  rescheduledAt := none
  createdAt := 1748700000000
  updatedAt := 1748700000000

/-- Fixture: a single cancelled (terminal) appointment, id 5, owner 3,
veterinarian 2, starting at time 1000. -/
def terminalDb : DB where
  pets := []
  users := []
  appointments := [mkAppt 5 3 2 1000 30 .cancelled]

/-- Fixture: a single pending appointment, id 5, owner 3, veterinarian 2. -/
def pendingDb : DB where
  pets := []
  users := []
  appointments := [mkAppt 5 3 2 1000 30 .pending]

/-- Fixture: a confirmed appointment that was rescheduled before, so it
carries a prior `rescheduleReason` and a historical `confirmedAt`. -/
def priorRescheduleDb : DB where
  pets := []
  users := []
  appointments :=
    [{ mkAppt 5 3 2 5000 45 .confirmed with
        rescheduleReason := some "vet emergency", confirmedAt := some 100 }]

/-- Fixture: one pending appointment of veterinarian 2 at time 5000 —
the only booking occupying its own window. -/
def selfDb : DB where
  pets := []
  users := []
  appointments := [mkAppt 5 3 2 5000 30 .pending]

/-- Fixture for the availability scenario: veterinarian 7 has one
confirmed 30-minute booking at 09:30 (ms 34200000 of the day). -/
def scenario0930Db : DB where
  pets := []
  users := []
  appointments := [mkAppt 1 3 7 34200000 30 .confirmed]

/-- Fixture: veterinarian 7 has one confirmed 30-minute booking at 09:45
(ms 35100000 of the day) — off the 30-minute slot grid. -/
def offGridDb : DB where
  pets := []
  users := []
  appointments := [mkAppt 1 3 7 35100000 30 .confirmed]

/-- Fixture: a result set of exactly three appointments, for the
pagination boundary. -/
def threeAppts : List Appointment :=
  [mkAppt 1 3 2 1000 30 .pending, mkAppt 2 3 2 2000 30 .pending,
   mkAppt 3 3 2 3000 30 .pending]

/-- A Firestore document update keeps a document's id, so `find?` by id
after the per-document merge returns the merged document. -/
lemma find?_map_ite (l : List Appointment) (i : Nat) (f : Appointment → Appointment)
    (hf : ∀ b, (f b).id = b.id) (a : Appointment)
    (h : l.find? (fun b => b.id == i) = some a) :
    (l.map fun b => if b.id == i then f b else b).find? (fun b => b.id == i)
      = some (f a) := by
  induction l with
  | nil => simp at h
  | cons c t ih =>
    cases hc : (c.id == i) with
    | true =>
      simp only [List.find?, hc] at h
      injection h with h
      subst h
      simp [List.find?, hc, hf]
    | false =>
      simp only [List.find?, hc] at h
      have hd : ((if (c.id == i) = true then f c else c).id == i) = false := by
        simp [hc]
      simp only [List.map_cons, List.find?, hd]
      exact ih h

/-- The status-update merge never touches the document id. -/
lemma applyStatusUpdate_id (a : Appointment) (st : Status) (r : Option String)
    (now : Int) : (applyStatusUpdate a st r now).id = a.id := by
  unfold applyStatusUpdate
  cases st <;> dsimp only <;> split <;> rfl

/-- The status-update merge stores exactly the requested status. -/
lemma applyStatusUpdate_status (a : Appointment) (st : Status) (r : Option String)
    (now : Int) : (applyStatusUpdate a st r now).status = st := by
  unfold applyStatusUpdate
  cases st <;> dsimp only <;> split <;> rfl

/-- When no other blocking booking of the veterinarian starts inside the
candidate window, the reschedule conflict test (conflict query filtered
by `doc.id !== appointmentId`) is false. -/
lemma conflicts_any_false (appts : List Appointment) (vetId apptId : Nat)
    (s e : Int)
    (h : ∀ b ∈ appts, b.id ≠ apptId →
      ¬(b.veterinarianId = vetId ∧ blockingStatus b.status = true ∧
        s ≤ b.dateTime ∧ b.dateTime < e)) :
    (conflictingAppointments appts vetId s e).any (fun d => d.id != apptId)
      = false := by
  by_contra hx
  rw [Bool.not_eq_false, List.any_eq_true] at hx
  obtain ⟨d, hd, hne⟩ := hx
  obtain ⟨hdmem, hdpred⟩ := List.mem_filter.mp hd
  simp only [Bool.and_eq_true, beq_iff_eq, inConflictWindow,
    decide_eq_true_eq] at hdpred
  exact h d hdmem (by simpa using hne)
    ⟨hdpred.1.1, hdpred.1.2, hdpred.2.1, hdpred.2.2⟩

/-- Evaluation of the reschedule handler on its success path: found
document, caller is owner or veterinarian, new time in the future, no
other blocking booking starting in the candidate window. -/
lemma reschedule_ok (db : DB) (uid apptId : Nat) (a : Appointment) (ndt : Int)
    (r : Option String) (now : Int) (nfy : Bool)
    (hfind : db.appointments.find? (fun b => b.id == apptId) = some a)
    (hacc : a.ownerId = uid ∨ a.veterinarianId = uid)
    (hfut : now < ndt)
    (hnoc : (conflictingAppointments db.appointments a.veterinarianId ndt
        (ndt + a.duration * 60000)).any (fun d => d.id != apptId) = false) :
    rescheduleAppointment uid apptId (some ndt) r db now nfy =
      ((if nfy then .ok else .rescheduleFailed),
        { db with appointments := db.appointments.map fun b =>
            if b.id == apptId then
              { b with dateTime := ndt, status := .pending,
                       rescheduledAt := some now, rescheduleReason := jsOptTrim r,
                       updatedAt := now }
            else b }) := by
  unfold rescheduleAppointment
  try dsimp only
  rw [hfind]
  try dsimp only
  rw [if_neg (by rcases hacc with h | h <;> simp [h])]
  rw [if_neg (by omega)]
  rw [hnoc]
  try dsimp only
  cases nfy <;> rfl

/-- Evaluation of the status handler past its guards: valid status
string, found document, both permission gates pass.  The appointment
update always commits; the response then depends only on whether the
notification write succeeds. -/
lemma updateStatus_eval (db : DB) (uid apptId : Nat) (statusStr : String)
    (r : Option String) (now : Int) (nfy : Bool) (a : Appointment)
    (hvalid : validStatuses.contains statusStr = true)
    (hfind : db.appointments.find? (fun b => b.id == apptId) = some a)
    (hg1 : ((statusOfString statusStr == Status.confirmed ||
        statusOfString statusStr == Status.completed ||
        statusOfString statusStr == Status.no_show) &&
        a.veterinarianId != uid) = false)
    (hg2 : (statusOfString statusStr == Status.cancelled &&
        a.ownerId != uid && a.veterinarianId != uid) = false) :
    updateAppointmentStatus uid apptId statusStr r db now nfy =
      ((if nfy then .ok else .updateStatusFailed),
       { db with appointments := db.appointments.map fun b =>
           if b.id == apptId then applyStatusUpdate b (statusOfString statusStr) r now
           else b }) := by
  unfold updateAppointmentStatus
  try dsimp only
  rw [if_neg (not_not_intro hvalid)]
  rw [hfind]
  try dsimp only
  rw [if_neg (by simp [hg1])]
  rw [if_neg (by simp [hg2])]
  try dsimp only
  cases nfy <;> rfl

/-- Every instant emitted by the slot loop lies in `[time, workEnd)`. -/
lemma genSlots_mem_bounds (fuel : Nat) (t0 we step s : Int) (hstep : 0 < step)
    (hs : s ∈ genSlots fuel t0 we step) : t0 ≤ s ∧ s < we := by
  induction fuel generalizing t0 with
  | zero => simp [genSlots] at hs
  | succ n ih =>
    unfold genSlots at hs
    by_cases h : t0 < we
    · rw [if_pos h] at hs
      rcases List.mem_cons.mp hs with rfl | htail
      · exact ⟨le_refl _, h⟩
      · have := ih (t0 + step) htail
        omega
    · rw [if_neg h] at hs
      simp at hs

/-- The slot loop emits instants in strictly increasing order. -/
lemma genSlots_pairwise (fuel : Nat) (t0 we step : Int) (hstep : 0 < step) :
    (genSlots fuel t0 we step).Pairwise (· < ·) := by
  induction fuel generalizing t0 with
  | zero => simp [genSlots]
  | succ n ih =>
    unfold genSlots
    by_cases h : t0 < we
    · rw [if_pos h]
      refine List.Pairwise.cons ?_ (ih (t0 + step))
      intro s hs
      have := genSlots_mem_bounds n (t0 + step) we step s hstep hs
      omega
    · rw [if_neg h]
      exact List.Pairwise.nil

/-- C1.  The conflict query of the create handler only matches existing
bookings whose start lies inside the candidate window
`[candidate.start, candidate.end)`.  With a confirmed booking at
2025-06-01T10:00Z of 30 minutes, a 30-minute create request at 10:15Z is
therefore NOT rejected: the handler finds no conflicting appointment and
persists the double-booked appointment, although the two intervals
overlap under the half-open rule the specification states.  The 10:30Z
request succeeds as specified. -/
theorem c1_conflict_query_misses_overlap :
    (createAppointment 1 scenarioReq1015 scenarioDb 1748700000000 50).1.isTimeConflict
      = false ∧
    (createAppointment 1 scenarioReq1015 scenarioDb 1748700000000 50).1.isCreated
      = true ∧
    specOverlap 1748772900000 1748774700000 1748772000000 1748773800000 = true ∧
    (createAppointment 1 scenarioReq1030 scenarioDb 1748700000000 51).1.isCreated
      = true := by
  decide

/-- C2 counterexample.  Neither handler inspects the current status of an
appointment: the veterinarian confirms a cancelled appointment and the
handler answers 200 and stores status `confirmed`; the same cancelled
appointment can also be rescheduled, landing in `pending`.  This refutes
the claim that every transition out of a terminal state fails and leaves
the appointment unchanged. -/
theorem c2_terminal_transition_succeeds_counterexample :
    (updateAppointmentStatus 2 5 "confirmed" none terminalDb 2000 true).1
      = .ok ∧
    (((updateAppointmentStatus 2 5 "confirmed" none terminalDb 2000 true).2.appointments.find?
        fun b => b.id == 5).map fun b => b.status) = some .confirmed ∧
    (rescheduleAppointment 2 5 (some 9000) none terminalDb 2000 true).1
      = .ok ∧
    (((rescheduleAppointment 2 5 (some 9000) none terminalDb 2000 true).2.appointments.find?
        fun b => b.id == 5).map fun b => b.status) = some .pending := by
  decide

/-- C2 as amended.  The code has no terminal-state guard: for any
appointment — including one whose status is cancelled, completed or
no_show — a permitted status change succeeds with 200 and overwrites the
status, and a reschedule to a conflict-free future time succeeds and
resets the status to pending.  No `InvalidTransitionError` exists in the
code. -/
theorem c2_no_terminal_state_guard (db : DB) (uid apptId : Nat)
    (a : Appointment) (r : Option String) (now : Int)
    (hfind : db.appointments.find? (fun b => b.id == apptId) = some a)
    (hterm : a.status = .cancelled ∨ a.status = .completed ∨ a.status = .no_show)
    (hvet : a.veterinarianId = uid)
    (hfut : now < a.dateTime)
    (hnoc : ∀ b ∈ db.appointments, b.id ≠ apptId →
      ¬(b.veterinarianId = a.veterinarianId ∧ blockingStatus b.status = true ∧
        a.dateTime ≤ b.dateTime ∧ b.dateTime < a.dateTime + a.duration * 60000)) :
    (updateAppointmentStatus uid apptId "confirmed" r db now true).1 = .ok ∧
    ((updateAppointmentStatus uid apptId "confirmed" r db now true).2.appointments.find?
        fun b => b.id == apptId) = some (applyStatusUpdate a .confirmed r now) ∧
    (applyStatusUpdate a .confirmed r now).status = .confirmed ∧
    (rescheduleAppointment uid apptId (some a.dateTime) r db now true).1 = .ok ∧
    (((rescheduleAppointment uid apptId (some a.dateTime) r db now true).2.appointments.find?
        fun b => b.id == apptId).map fun b => b.status) = some .pending := by
  have hst : statusOfString "confirmed" = .confirmed := rfl
  have hupd := updateStatus_eval db uid apptId "confirmed" r now true a (by decide)
    hfind (by simp [hst, hvet]) (by simp [hst])
  have hr := reschedule_ok db uid apptId a a.dateTime r now true hfind
    (Or.inr hvet) hfut
    (conflicts_any_false db.appointments a.veterinarianId apptId a.dateTime
      (a.dateTime + a.duration * 60000) hnoc)
  refine ⟨by simp [hupd], ?_, applyStatusUpdate_status a .confirmed r now,
    by simp [hr], ?_⟩
  · rw [hupd]
    simp only [hst]
    exact find?_map_ite db.appointments apptId
      (fun b => applyStatusUpdate b .confirmed r now)
      (fun b => applyStatusUpdate_id b .confirmed r now) a hfind
  · rw [hr]
    have hfm := find?_map_ite db.appointments apptId
      (fun b => { b with dateTime := a.dateTime, status := .pending,
                         rescheduledAt := some now, rescheduleReason := jsOptTrim r,
                         updatedAt := now })
      (fun b => rfl) a hfind
    rw [hfm]
    rfl

/-- Witness for `c2_no_terminal_state_guard` on a concrete cancelled
appointment. -/
theorem c2_no_terminal_state_guard_witness :
    (updateAppointmentStatus 2 5 "confirmed" none terminalDb 500 true).1
      = .ok :=
  (c2_no_terminal_state_guard terminalDb 2 5 (mkAppt 5 3 2 1000 30 .cancelled)
    none 500 (by decide) (Or.inl rfl) rfl (by decide) (by decide)).1

/-- C3 counterexample.  The notification insert of the status handler is
awaited inside the same try/catch as the appointment update: when it
fails after the update committed, the handler answers 500
`UPDATE_STATUS_FAILED` although the status change was persisted —
refuting the claim that the caller still receives the success
response. -/
theorem c3_notify_failure_error_counterexample :
    (updateAppointmentStatus 2 5 "confirmed" none pendingDb 2000 false).1
      = .updateStatusFailed ∧
    (((updateAppointmentStatus 2 5 "confirmed" none pendingDb 2000 false).2.appointments.find?
        fun b => b.id == 5).map fun b => b.status) = some .confirmed := by
  decide

/-- C3 as amended.  For every status-change request that passes the
status whitelist, document lookup and permission gates, a notification
dispatch failure after the persistence update converts the response into
the 500 `UPDATE_STATUS_FAILED` error, even though the status change has
already been persisted. -/
theorem c3_notify_failure_breaks_success (db : DB) (uid apptId : Nat)
    (statusStr : String) (r : Option String) (now : Int) (a : Appointment)
    (hvalid : validStatuses.contains statusStr = true)
    (hfind : db.appointments.find? (fun b => b.id == apptId) = some a)
    (hg1 : ((statusOfString statusStr == Status.confirmed ||
        statusOfString statusStr == Status.completed ||
        statusOfString statusStr == Status.no_show) &&
        a.veterinarianId != uid) = false)
    (hg2 : (statusOfString statusStr == Status.cancelled &&
        a.ownerId != uid && a.veterinarianId != uid) = false) :
    (updateAppointmentStatus uid apptId statusStr r db now false).1
      = .updateStatusFailed ∧
    ((updateAppointmentStatus uid apptId statusStr r db now false).2.appointments.find?
        fun b => b.id == apptId)
      = some (applyStatusUpdate a (statusOfString statusStr) r now) ∧
    (applyStatusUpdate a (statusOfString statusStr) r now).status
      = statusOfString statusStr := by
  have hupd := updateStatus_eval db uid apptId statusStr r now false a hvalid
    hfind hg1 hg2
  refine ⟨by simp [hupd], ?_,
    applyStatusUpdate_status a (statusOfString statusStr) r now⟩
  rw [hupd]
  exact find?_map_ite db.appointments apptId
    (fun b => applyStatusUpdate b (statusOfString statusStr) r now)
    (fun b => applyStatusUpdate_id b (statusOfString statusStr) r now) a hfind

/-- Witness for `c3_notify_failure_breaks_success` on a concrete pending
appointment confirmed by its veterinarian. -/
theorem c3_notify_failure_breaks_success_witness :
    (updateAppointmentStatus 2 5 "confirmed" none pendingDb 3000 false).1
      = .updateStatusFailed :=
  (c3_notify_failure_breaks_success pendingDb 2 5 "confirmed" none 3000
    (mkAppt 5 3 2 1000 30 .pending) (by decide) (by decide) (by decide)
    (by decide)).1

/-- C5 counterexample.  The create handler validates only the presence of
`petId`, `veterinarianId`, `dateTime`, `type` and `reason`; it never
checks the duration.  A request with `duration: 0` is accepted and the
stored appointment has `durationMinutes = 0`, refuting the claim that
zero or negative durations are rejected. -/
theorem c5_zero_duration_accepted :
    (createAppointment 1 zeroDurationReq scenarioDb 1748700000000 50).1.isCreated
      = true ∧
    (createAppointment 1 zeroDurationReq scenarioDb 1748700000000 50).1.createdDuration?
      = some 0 := by
  decide

/-- C5 as amended.  Every appointment persisted by the create operation
stores exactly the request's duration, defaulted to 30 only when the
field is absent; no positivity check is performed, so zero and negative
durations are stored as supplied. -/
theorem c5_duration_defaulted_not_validated (uid : Nat) (req : CreateRequest)
    (db : DB) (now : Int) (newId : Nat) (a : Appointment)
    (h : (createAppointment uid req db now newId).1 = .created a) :
    a.duration = req.duration.getD 30 := by
  unfold createAppointment at h
  dsimp only at h
  split at h
  · simp_all
  · split at h
    · simp_all
    · split at h
      · simp_all
      · split at h
        · simp_all
        · split at h
          · simp_all
          · split at h
            · simp_all
            · split at h
              · simp at h
                subst h
                rfl
              · simp_all

/-- Witness for `c5_duration_defaulted_not_validated` at a concrete
request. -/
theorem c5_duration_defaulted_witness :
    zeroDurationStored.duration = zeroDurationReq.duration.getD 30 :=
  c5_duration_defaulted_not_validated 1 zeroDurationReq scenarioDb 1748700000000 50
    zeroDurationStored (by decide)

/-- C4 counterexample.  The availability check tests only whether the
slot START lies inside a booked interval.  With a 30-minute booking at
09:45 (off the grid), slot 09:30 is still returned although its 30-minute
extent `[09:30, 10:00)` overlaps the booking `[09:45, 10:15)` under the
half-open rule — refuting "omitted exactly when the slot interval
overlaps a booking". -/
theorem c4_slot_extent_ignored_counterexample :
    (34200000 : Int) ∈ getAvailability offGridDb 7 0 0 ∧
    specOverlap 34200000 36000000 35100000 36900000 = true := by
  decide

/-- C4 as amended.  A candidate slot `t` is omitted exactly when `t`
itself lies inside some pending/confirmed booking's stored interval
`[start, start + duration*60000)` (or when `t <= now`); the slot's own
30-minute extent is never consulted.  The booking's actual stored
duration does determine what it blocks, and the stated scenario (work
hours 09:00-17:00, one 30-minute booking at 09:30, `now` before 09:00)
yields exactly the 15 specified slots. -/
theorem c4_slot_start_blocking_rule :
    (∀ (db : DB) (vetId : Nat) (dayStart now t : Int),
      t ∈ getAvailability db vetId dayStart now ↔
        (t ∈ slotGrid dayStart ∧ now < t ∧
          ∀ p ∈ bookedSlotsOf db.appointments vetId dayStart,
            ¬(p.1 ≤ t ∧ t < p.1 + p.2 * 60000))) ∧
    getAvailability scenario0930Db 7 0 0 =
      [32400000, 36000000, 37800000, 39600000, 41400000, 43200000, 45000000,
       46800000, 48600000, 50400000, 52200000, 54000000, 55800000, 57600000,
       59400000] := by
  constructor
  · intro db vetId dayStart now t
    unfold getAvailability
    rw [List.mem_filter]
    simp only [isBooked, List.any_eq_true, Bool.and_eq_true, decide_eq_true_eq,
      Bool.not_eq_true', decide_eq_false_iff_not, not_exists]
    constructor
    · rintro ⟨hg, hn, hb⟩
      exact ⟨hg, hn, fun p hp hcon => hb p ⟨hp, hcon⟩⟩
    · rintro ⟨hg, hn, hb⟩
      exact ⟨hg, hn, fun p hpc => hb p hpc.1 hpc.2⟩
  · decide

/-- Witness for `c4_slot_start_blocking_rule`: slot 09:00 is offered in
the scenario fixture. -/
theorem c4_slot_start_blocking_rule_witness :
    (32400000 : Int) ∈ getAvailability scenario0930Db 7 0 0 :=
  (c4_slot_start_blocking_rule.1 scenario0930Db 7 0 0 32400000).mpr (by decide)

/-- C6.  Under the conflict query's window test, a booking that ends
exactly at `T` never matches a candidate starting at `T` (its start is
strictly before the window), and a booking spanning `[T, T+30m)` never
matches a candidate ending exactly at `T` (its start is not strictly
before the window's end): the boundary instants the specification calls
out never conflict. -/
theorem c6_half_open_boundary (b b' : Appointment) (vetId : Nat) (T cd s : Int)
    (hEnd : b.dateTime + b.duration * 60000 = T) (hpos : 0 < b.duration)
    (hb' : b'.dateTime = T) (hb'dur : b'.duration = 30) :
    (conflictingAppointments [b] vetId T (T + cd * 60000)).isEmpty = true ∧
    (conflictingAppointments [b'] vetId s T).isEmpty = true := by
  constructor
  · have h1 : ¬ (T ≤ b.dateTime) := by omega
    simp [conflictingAppointments, inConflictWindow, List.filter, h1]
  · have h2 : ¬ (b'.dateTime < T) := by omega
    simp [conflictingAppointments, inConflictWindow, List.filter, h2]

/-- Witness for `c6_half_open_boundary`: a booking 09:30-10:00 against a
candidate starting 10:00, and a booking starting 10:00 against a
candidate 09:30-10:00. -/
theorem c6_half_open_boundary_witness :
    (conflictingAppointments [mkAppt 1 3 2 34200000 30 .confirmed] 2 36000000
      (36000000 + 30 * 60000)).isEmpty = true ∧
    (conflictingAppointments [mkAppt 2 3 2 36000000 30 .confirmed] 2 34200000
      36000000).isEmpty = true :=
  c6_half_open_boundary (mkAppt 1 3 2 34200000 30 .confirmed)
    (mkAppt 2 3 2 36000000 30 .confirmed) 2 36000000 30 34200000
    (by decide) (by decide) (by decide) (by decide)

/-- C7.  The reschedule conflict test filters the query result with
`doc.id !== appointmentId`, so the appointment being moved never blocks
itself: whenever no OTHER blocking booking of the veterinarian starts in
the window of the appointment's own current time, rescheduling to that
time cannot answer 409 `TIME_CONFLICT` — whatever the caller, reason or
notification outcome. -/
theorem c7_reschedule_self_exclusion (db : DB) (uid apptId : Nat)
    (X : Appointment) (r : Option String) (now : Int) (nfy : Bool)
    (hfind : db.appointments.find? (fun b => b.id == apptId) = some X)
    (hnoc : ∀ b ∈ db.appointments, b.id ≠ apptId →
      ¬(b.veterinarianId = X.veterinarianId ∧ blockingStatus b.status = true ∧
        X.dateTime ≤ b.dateTime ∧ b.dateTime < X.dateTime + X.duration * 60000)) :
    (rescheduleAppointment uid apptId (some X.dateTime) r db now nfy).1
      ≠ .timeConflict := by
  unfold rescheduleAppointment
  try dsimp only
  rw [hfind]
  try dsimp only
  split
  · simp
  · split
    · simp
    · rw [if_neg (by
        rw [conflicts_any_false db.appointments X.veterinarianId apptId X.dateTime
          (X.dateTime + X.duration * 60000) hnoc]
        simp)]
      cases nfy <;> simp

/-- Witness for `c7_reschedule_self_exclusion`: the only booking in the
window of appointment 5's own time is appointment 5 itself. -/
theorem c7_reschedule_self_exclusion_witness :
    (rescheduleAppointment 3 5 (some (mkAppt 5 3 2 5000 30 .pending).dateTime)
      none selfDb 2000 true).1 ≠ .timeConflict :=
  c7_reschedule_self_exclusion selfDb 3 5 (mkAppt 5 3 2 5000 30 .pending)
    none 2000 true (by decide) (by decide)

/-- C8.  Every slot returned by the availability computation lies in
`[workStart, workEnd)` = `[dayStart+09:00, dayStart+17:00)` and is
strictly after `now`; the returned list is strictly ascending; and the
empty list is a possible result (here: `now` past the end of the work
day). -/
theorem c8_availability_bounds_sorted (db : DB) (vetId : Nat)
    (dayStart now : Int) :
    (∀ s ∈ getAvailability db vetId dayStart now,
      dayStart + 9 * 3600000 ≤ s ∧ s < dayStart + 17 * 3600000 ∧ now < s) ∧
    (getAvailability db vetId dayStart now).Pairwise (· < ·) ∧
    getAvailability ⟨[], [], []⟩ 1 0 61200000 = [] := by
  refine ⟨?_, ?_, by decide⟩
  · intro s hs
    obtain ⟨hgrid, hpred⟩ := List.mem_filter.mp hs
    unfold slotGrid at hgrid
    have hb := genSlots_mem_bounds 17 (dayStart + 9 * 3600000)
      (dayStart + 17 * 3600000) 1800000 s (by omega) hgrid
    simp only [Bool.and_eq_true, decide_eq_true_eq] at hpred
    exact ⟨hb.1, hb.2, hpred.1⟩
  · unfold getAvailability slotGrid
    exact List.Pairwise.filter _ (genSlots_pairwise 17 _ _ _ (by omega))

/-- Witness for `c8_availability_bounds_sorted`: the 09:00 slot of the
scenario fixture satisfies the bounds. -/
theorem c8_availability_bounds_sorted_witness :
    (0 : Int) + 9 * 3600000 ≤ 32400000 ∧ (32400000 : Int) < 0 + 17 * 3600000 ∧
    (0 : Int) < 32400000 :=
  (c8_availability_bounds_sorted scenario0930Db 7 0 0).1 32400000 (by decide)

/-- C9 counterexample.  A successful reschedule does not leave "every
other field unchanged": it unconditionally overwrites `rescheduleReason`
— here the prior value `"vet emergency"` is replaced by `null` because
the new request carries no reason. -/
theorem c9_reschedule_reason_overwritten_counterexample :
    (rescheduleAppointment 3 5 (some 9000) none priorRescheduleDb 2000 true).1
      = .ok ∧
    ((priorRescheduleDb.appointments.find? fun b => b.id == 5).map
        fun b => b.rescheduleReason) = some (some "vet emergency") ∧
    (((rescheduleAppointment 3 5 (some 9000) none priorRescheduleDb 2000 true).2.appointments.find?
        fun b => b.id == 5).map fun b => b.rescheduleReason) = some none := by
  decide

/-- C9 as amended.  A successful reschedule stores exactly the old
document with `dateTime` set to the new start, `status` forced to
pending, `rescheduledAt` and `updatedAt` stamped, and `rescheduleReason`
overwritten with the request's (trimmed) reason or null; every remaining
field — in particular `durationMinutes` and the historical `confirmedAt`
— is preserved. -/
theorem c9_reschedule_frame (db : DB) (uid apptId : Nat) (a : Appointment)
    (ndt : Int) (r : Option String) (now : Int)
    (hfind : db.appointments.find? (fun b => b.id == apptId) = some a)
    (hacc : a.ownerId = uid ∨ a.veterinarianId = uid)
    (hfut : now < ndt)
    (hnoc : ∀ b ∈ db.appointments, b.id ≠ apptId →
      ¬(b.veterinarianId = a.veterinarianId ∧ blockingStatus b.status = true ∧
        ndt ≤ b.dateTime ∧ b.dateTime < ndt + a.duration * 60000)) :
    (rescheduleAppointment uid apptId (some ndt) r db now true).1 = .ok ∧
    ((rescheduleAppointment uid apptId (some ndt) r db now true).2.appointments.find?
        fun b => b.id == apptId) =
      some { a with dateTime := ndt, status := .pending, rescheduledAt := some now,
                    rescheduleReason := jsOptTrim r, updatedAt := now } := by
  have hr := reschedule_ok db uid apptId a ndt r now true hfind hacc hfut
    (conflicts_any_false db.appointments a.veterinarianId apptId ndt
      (ndt + a.duration * 60000) hnoc)
  refine ⟨by simp [hr], ?_⟩
  rw [hr]
  have hfm := find?_map_ite db.appointments apptId
    (fun b => { b with dateTime := ndt, status := .pending, rescheduledAt := some now,
                       rescheduleReason := jsOptTrim r, updatedAt := now })
    (fun b => rfl) a hfind
  simpa using hfm

/-- Witness for `c9_reschedule_frame` on the concrete confirmed
appointment. -/
theorem c9_reschedule_frame_witness :
    (rescheduleAppointment 3 5 (some 9000) none priorRescheduleDb 2000 true).1
      = .ok :=
  (c9_reschedule_frame priorRescheduleDb 3 5
    ({ mkAppt 5 3 2 5000 45 .confirmed with
        rescheduleReason := some "vet emergency", confirmedAt := some 100 })
    9000 none 2000 (by decide) (Or.inl rfl) (by decide) (by decide)).1

/-- C10.  `hasMore` is computed as `snapshot.size === parseInt(limit)`:
it is true exactly when the returned page is full; consequently, when
the matching records end exactly at a page boundary
(`matching.length = offset + limit`), the last full page still reports
`hasMore = true` although no further records exist. -/
theorem c10_hasMore_full_page (m : List Appointment) (lim off : Nat) :
    (hasMoreFlag m lim off = true ↔ (pagedAppointments m lim off).length = lim) ∧
    (m.length = off + lim →
      hasMoreFlag m lim off = true ∧ m.drop (off + lim) = []) := by
  constructor
  · simp [hasMoreFlag]
  · intro h
    constructor
    · simp only [hasMoreFlag, pagedAppointments, List.length_take,
        List.length_drop, beq_iff_eq]
      omega
    · exact List.drop_eq_nil_of_le (le_of_eq h)

/-- Witness for `c10_hasMore_full_page`: three matching records, offset 1,
limit 2 — the page is the last one yet `hasMore` is true. -/
theorem c10_hasMore_full_page_witness :
    hasMoreFlag threeAppts 2 1 = true ∧ threeAppts.drop (1 + 2) = [] :=
  (c10_hasMore_full_page threeAppts 2 1).2 (by decide)
